import Mathlib

/-
Verification of the Relentless TCP congestion-control engine
(src/tcp_relentless.c) against its natural-language specification.

The C module is shallowly embedded below.  Machine integers are modelled
as Nat (for u32/u64 fields) with explicit reductions modulo 2^32 / 2^64
where the C arithmetic can wrap, and as Int (for s32/s64 fields) with an
explicit two-complement wrap where the C stores into a signed field.
The kernel collaborators that the module reads (struct tcp_sock fields,
ktime_get, prandom_u32_max, sk->sk_priority) are passed in explicitly:
the random draw of prandom_u32_max and the current time of ktime_get
become arguments of the corresponding functions, which makes every
operation a pure, executable function of its inputs.
-/

set_option maxRecDepth 30000

namespace Relentless

/-- Reduction modulo 2^32, the effect of C u32 arithmetic. -/
def u32 (n : Nat) : Nat := n % 4294967296

/-- Reduction modulo 2^64, the effect of C u64 arithmetic. -/
def u64 (n : Nat) : Nat := n % 18446744073709551616

/-- The u32 bit pattern of a signed value (two-complement conversion s32 → u32). -/
def u32ofInt (n : Int) : Nat := (n % 4294967296).toNat

/-- Two-complement wrap of an integer into the s32 range, the effect of
storing into a C s32 field. -/
def s32wrap (n : Int) : Int := (n + 2147483648) % 4294967296 - 2147483648

/-- u32 subtraction `a - b` (wrapping), for operands already below 2^32. -/
def sub32 (a b : Nat) : Nat := u32 (a + 4294967296 - u32 b)

/-- The fields of `struct tcp_sock` that the module reads or writes:
snd_cwnd, snd_ssthresh, total_retrans, packets-in-flight (the value of
`tcp_packets_in_flight(tp)`), packets_out. -/
structure TcpSock where
  snd_cwnd : Nat
  snd_ssthresh : Nat
  total_retrans : Nat
  packets_in_flight : Nat
  packets_out : Nat
deriving DecidableEq, Repr

/-- `struct relentless` (the per-flow private state).  `deadline` is a
ktime_t in nanoseconds (s64); `packets_left` is s32.  The `debug` field is
omitted: it only gates logging. -/
structure Ca where
  save_cwnd : Nat
  cwndnlosses : Nat
  rtts_observed : Nat
  rtt_min : Nat
  rtt_thresh : Nat
  rtt_cwnd : Nat
  maxw_at_rtt_min : Nat
  packets_left : Int
  deadline : Int
deriving DecidableEq, Repr

/-- Module parameters read by the engine (markthresh,
slowstart_rtt_observations_needed, deadline_aware). -/
structure Config where
  markthresh : Nat
  slowstart_rtt_observations_needed : Nat
  deadline_aware : Bool
deriving DecidableEq, Repr

/-- The module defaults: markthresh=174, slowstart_rtt_observations_needed=10,
deadline_aware=false. -/
def defaultConfig : Config := ⟨174, 10, false⟩

/-- `relentless_init`: the congestion-control private area is zeroed by the
host stack before `init` runs, so the fields the function does not assign
(rtt_thresh) are 0.  `rtt_min` is set to USEC_PER_SEC, `rtt_cwnd` to
`snd_cwnd << 10`. -/
def relentless_init (snd_cwnd : Nat) : Ca :=
  { save_cwnd := 0
    cwndnlosses := 0
    rtts_observed := 0
    rtt_min := 1000000
    rtt_thresh := 0
    rtt_cwnd := u32 (snd_cwnd * 1024)
    maxw_at_rtt_min := snd_cwnd
    packets_left := 0
    deadline := 0 }

/-- `relentless_cong_avoid`: raises snd_cwnd to at least the packets in
flight, then records save_cwnd and cwndnlosses (= snd_cwnd + total_retrans,
u32). -/
def relentless_cong_avoid (tp : TcpSock) (ca : Ca) : TcpSock × Ca :=
  let tp2 := { tp with snd_cwnd := max tp.snd_cwnd tp.packets_in_flight }
  (tp2, { ca with save_cwnd := tp2.snd_cwnd
                  cwndnlosses := u32 (tp2.snd_cwnd + tp.total_retrans) })

/-- `relentless_ssthresh`: returns `max(tp->snd_cwnd, 2U)`. -/
def relentless_ssthresh (tp : TcpSock) : Nat := max tp.snd_cwnd 2

/-- The `enum tcp_ca_event` values the host can deliver. -/
inductive CaEvent where
  | tx_start
  | cwnd_restart
  | complete_cwr
  | loss
  | ecn_no_ce
  | ecn_is_ce
deriving DecidableEq, Repr

/-- `relentless_event`: on CA_EVENT_COMPLETE_CWR sets
`tp->snd_ssthresh = ca->cwndnlosses - tp->total_retrans` (u32 subtraction);
every other event falls through to the default no-op. -/
def relentless_event (tp : TcpSock) (ca : Ca) (ev : CaEvent) : TcpSock :=
  match ev with
  | CaEvent.complete_cwr => { tp with snd_ssthresh := sub32 ca.cwndnlosses tp.total_retrans }
  | _ => tp

/-- Linux `clamp(val, lo, hi) = min(max(val, lo), hi)` on s64. -/
def iclamp (x lo hi : Int) : Int := min (max x lo) hi

/-- `relentless_urgency`: dl_us = ktime_to_us(deadline); 0 when dl_us <= 0;
otherwise time_to_complete = rtt_thresh * (packets_left - packets_out) * 4
/ (3 * snd_cwnd) computed entirely in u32 (the s32 packets_left is
converted to u32 by the usual arithmetic conversions, and every product
wraps), then urgency = 2048 * time_to_complete / dl_us in s64, clamped to
[0, 2048].  The C division by `3 * snd_cwnd` is undefined when snd_cwnd
is 0; Nat division yields 0 there, and every theorem that depends on the
quotient carries the hypothesis 0 < snd_cwnd. -/
def relentless_urgency (tp : TcpSock) (ca : Ca) : Int :=
  let dl_us : Int := ca.deadline.tdiv 1000
  if dl_us ≤ 0 then 0
  else
    let diff : Nat := sub32 (u32ofInt ca.packets_left) tp.packets_out
    let ttc : Nat := u32 (u32 (ca.rtt_thresh * diff) * 4) / u32 (3 * tp.snd_cwnd)
    iclamp ((2048 * (ttc : Int)).tdiv dl_us) 0 2048

/-- The backoff predicate of relentless_pkts_acked line 308:
`tp->snd_cwnd >= tp->snd_ssthresh && prandom_u32_max(RELENTLESS_MAX_URGENCY)
 > relentless_urgency(sk)`, with the random draw passed in explicitly. -/
def relentless_backoff (tp : TcpSock) (ca : Ca) (draw : Nat) : Bool :=
  decide (tp.snd_ssthresh ≤ tp.snd_cwnd) && decide (relentless_urgency tp ca < (draw : Int))

/-- One application of the congested-branch window decrement (lines
313-314): `rtt_cwnd -= num_acked << 6; rtt_cwnd = max(rtt_cwnd, 2 << 10)`,
in u32 arithmetic. -/
def backoffStep (w num_acked : Nat) : Nat :=
  max (sub32 w (num_acked * 64)) 2048

/-- The period `p` (named in nanoseconds in the source) that the
sk_priority switch of relentless_check_deadline assigns: 2s for the two
bulk classes, 0.1s for the interactive classes, 0.05s for control, the
Brandt RTTS03 curve periods for priorities 8-15, and 0 for a priority
that matches no case. -/
def quotaPeriodNs (prio : Nat) : Nat :=
  if prio = 2 ∨ prio = 3 then 2000000000
  else if prio = 4 ∨ prio = 5 ∨ prio = 6 then 100000000
  else if prio = 7 then 50000000
  else if prio = 8 ∨ prio = 11 then 200000000
  else if prio = 10 ∨ prio = 12 then 1000000000
  else if prio = 9 ∨ prio = 13 ∨ prio = 14 ∨ prio = 15 then 500000000
  else 0

/-- The utilization percentage of the Brandt RTTS03 curve entries
(priorities 8-15 of the switch). -/
def quotaUtil (prio : Nat) : Nat :=
  if prio = 8 then 25
  else if prio = 9 then 30
  else if prio = 10 then 35
  else if prio = 11 then 20
  else if prio = 12 then 60
  else if prio = 13 then 40
  else if prio = 14 then 70
  else if prio = 15 then 90
  else 0

/-- The packets_left value the switch assigns: fixed quotas for priorities
2-7; for the Brandt curves 8-15, `p * maxw_at_rtt_min * util /
(rtt_min * 100)` in u64 arithmetic (the u32 product `rtt_min * 100` wraps
first, and is widened to u64 for the division), stored into the s32
packets_left.  The C division is undefined when `rtt_min * 100` wraps to
0; Nat division yields 0 there.  A priority matching no case leaves
packets_left unchanged. -/
def quotaPackets (ca : Ca) (prio : Nat) : Int :=
  if prio = 2 then 10000
  else if prio = 3 then 50000
  else if prio = 4 then 10
  else if prio = 5 then 20
  else if prio = 6 ∨ prio = 7 then 2
  else if 8 ≤ prio ∧ prio ≤ 15 then
    s32wrap ((u64 (u64 (quotaPeriodNs prio * ca.maxw_at_rtt_min) * quotaUtil prio)
              / u32 (ca.rtt_min * 100) : Nat) : Int)
  else ca.packets_left

/-- `relentless_check_deadline`: returns unchanged when the stored deadline
is nonzero and `ktime_before(deadline, now)` (the deadline already passed);
otherwise dispatches on sk_priority.  Priorities 0 (BESTEFFORT, whose body
is compiled out so it falls through) and 1 (FILLER) return without touching
the deadline; every other priority assigns packets_left per `quotaPackets`
and ends with `deadline = ktime_add_us(now, p)` = now + p * 1000 ns (the
nanosecond-valued p is passed to the microsecond-argument ktime helper).
A priority above 15 matches no switch case, leaving p = 0 and packets_left
unchanged. -/
def relentless_check_deadline (ca : Ca) (prio : Nat) (now : Int) : Ca :=
  if ca.deadline ≠ 0 ∧ ca.deadline < now then ca
  else if prio = 0 ∨ prio = 1 then ca
  else { ca with packets_left := quotaPackets ca prio
                 deadline := now + (quotaPeriodNs prio : Int) * 1000 }

/-- The rtt_thresh formula of line 300: `r + r * markthresh / 1024`, each
operation in u32. -/
def threshOf (cfg : Config) (r : Nat) : Nat :=
  u32 (r + u32 (r * cfg.markthresh) / 1024)

/-- Lines 298-301: if the (positive) sample is below rtt_min, record it and
recompute rtt_thresh. -/
def rttUpdate (cfg : Config) (ca : Ca) (r : Nat) : Ca :=
  if r < ca.rtt_min then { ca with rtt_min := r, rtt_thresh := threshOf cfg r }
  else ca

/-- Lines 307-329, the congested branch (`r > rtt_thresh`): optionally
decrement rtt_cwnd (backoff), overwrite snd_cwnd with `rtt_cwnd >> 10`,
and collapse snd_ssthresh to snd_cwnd when `snd_cwnd <= snd_ssthresh`. -/
def congestedStep (tp : TcpSock) (ca : Ca) (num_acked draw : Nat) : TcpSock × Ca :=
  let ca2 := if relentless_backoff tp ca draw
             then { ca with rtt_cwnd := backoffStep ca.rtt_cwnd num_acked }
             else ca
  let tp2 := { tp with snd_cwnd := ca2.rtt_cwnd / 1024 }
  let tp3 := if tp2.snd_cwnd ≤ tp2.snd_ssthresh
             then { tp2 with snd_ssthresh := tp2.snd_cwnd }
             else tp2
  (tp3, ca2)

/-- Lines 330-334, the non-congested branch: raise maxw_at_rtt_min to the
current window, add one 1024-unit increment to rtt_cwnd (u32), and
overwrite snd_cwnd with `rtt_cwnd >> 10`. -/
def growthStep (tp : TcpSock) (ca : Ca) : TcpSock × Ca :=
  let ca2 := { ca with maxw_at_rtt_min := max ca.maxw_at_rtt_min tp.snd_cwnd
                       rtt_cwnd := u32 (ca.rtt_cwnd + 1024) }
  ({ tp with snd_cwnd := ca2.rtt_cwnd / 1024 }, ca2)

/-- Lines 336-339: when deadline_aware and the (already updated) snd_cwnd
exceeds snd_ssthresh, run check_deadline and then subtract num_acked from
the s32 packets_left. -/
def deadlinePhase (cfg : Config) (s : TcpSock × Ca) (num_acked : Nat) (now : Int) (prio : Nat) :
    TcpSock × Ca :=
  if cfg.deadline_aware = true ∧ s.1.snd_ssthresh < s.1.snd_cwnd then
    let ca2 := relentless_check_deadline s.2 prio now
    (s.1, { ca2 with packets_left := s32wrap (ca2.packets_left - (num_acked : Int)) })
  else s

/-- The body of relentless_pkts_acked after the rtt_min update: return
unchanged while `rtts_observed < slowstart_rtt_observations_needed`, else
take the congested or growth branch and finish with the deadline phase. -/
def ackPhase (cfg : Config) (tp : TcpSock) (ca : Ca) (num_acked r draw : Nat) (now : Int)
    (prio : Nat) : TcpSock × Ca :=
  if ca.rtts_observed < cfg.slowstart_rtt_observations_needed then (tp, ca)
  else
    deadlinePhase cfg
      (if ca.rtt_thresh < r then congestedStep tp ca num_acked draw else growthStep tp ca)
      num_acked now prio

/-- `relentless_pkts_acked(sk, num_acked, rtt)`: a non-positive rtt returns
immediately; otherwise the observation counter is incremented, rtt_min /
rtt_thresh are updated for a new minimum, and the window logic of
`ackPhase` runs.  `draw` is the value prandom_u32_max(2048) would return,
`now` the value of ktime_get(), `prio` the socket priority. -/
def relentless_pkts_acked (cfg : Config) (tp : TcpSock) (ca : Ca) (num_acked : Nat) (rtt : Int)
    (draw : Nat) (now : Int) (prio : Nat) : TcpSock × Ca :=
  if rtt ≤ 0 then (tp, ca)
  else
    ackPhase cfg tp
      (rttUpdate cfg { ca with rtts_observed := ca.rtts_observed + 1 } rtt.toNat)
      num_acked rtt.toNat draw now prio

/-- The two CE-marking states of the spec's ECNStateMachine. -/
inductive CeState where
  | noCE
  | ce
deriving DecidableEq, Repr

/-- The ECN-echo flag an ACK reflecting a given CE state carries. -/
def CeState.echoBit : CeState → Bool
  | CeState.noCE => false
  | CeState.ce => true

/-- The ECN-related per-flow state of the spec's ECNStateMachine. -/
structure EcnState where
  ce_state : CeState
  delayed_ack_reserved : Bool
  rcv_nxt : Nat
  prior_rcv_nxt : Nat
deriving DecidableEq, Repr

/-- An ACK emitted by the ECN state machine: the receive-sequence cursor it
was emitted at and its ECN-echo flag. -/
structure AckRecord where
  cursor : Nat
  ecn_echo : Bool
deriving DecidableEq, Repr

/-- The events delivered to the ECN state machine. -/
inductive EcnEvent where
  | ceObserved
  | noCeObserved
  | delayedAckScheduled
  | ackSentImmediately
deriving DecidableEq, Repr

/-- Modelled from the spec: the CE-transition side effect of §4.2
(ECNStateMachine), which is not present in src/tcp_relentless.c (the only
event handler there is the recovery-complete case of relentless_event).
On a transition the machine, if a delayed ACK is reserved, rewinds the
receive-sequence cursor to the value recorded at the last transition,
emits one ACK carrying the prior state's ECN-echo flag, restores the
cursor, then records the current cursor as the new prior baseline and the
new CE state.  The emitted ACK list is returned alongside the state; the
ACK's cursor field is the rewound value, and the state's rcv_nxt is left
as it was (the rewind is temporary). -/
def ecn_transition (s : EcnState) (newCe : CeState) : EcnState × List AckRecord :=
  if s.ce_state = newCe then (s, [])
  else
    let flushed := if s.delayed_ack_reserved then [AckRecord.mk s.prior_rcv_nxt s.ce_state.echoBit]
                   else []
    ({ s with ce_state := newCe, prior_rcv_nxt := s.rcv_nxt }, flushed)

/-- Modelled from the spec: event dispatch of §4.2.  CE / non-CE
observations drive `ecn_transition`; the two delayed-ACK events only
toggle `delayed_ack_reserved`. -/
def ecn_event (s : EcnState) (ev : EcnEvent) : EcnState × List AckRecord :=
  match ev with
  | EcnEvent.ceObserved => ecn_transition s CeState.ce
  | EcnEvent.noCeObserved => ecn_transition s CeState.noCE
  | EcnEvent.delayedAckScheduled => ({ s with delayed_ack_reserved := true }, [])
  | EcnEvent.ackSentImmediately => ({ s with delayed_ack_reserved := false }, [])

end Relentless

namespace Relentless

/-- C10: the ssthresh callback returns max(snd_cwnd, 2): it is never below
2 and never below the current congestion window, so the host's
multiplicative decrease on loss is defeated through this path. -/
theorem C10_ssthresh_no_halving (tp : TcpSock) :
    2 ≤ relentless_ssthresh tp ∧ tp.snd_cwnd ≤ relentless_ssthresh tp := by
  unfold relentless_ssthresh
  exact ⟨le_max_right _ _, le_max_left _ _⟩

/-- C1: after a congestion-avoidance tick records
cwndnlosses = (raised) snd_cwnd + total_retrans, delivering
CA_EVENT_COMPLETE_CWR with a possibly larger retransmission count r sets
snd_ssthresh = cwndnlosses - r, provided the recorded sum did not wrap and
r does not exceed it. -/
theorem C1_recovery_ssthresh (tp tp2 : TcpSock) (ca : Ca)
    (hnw : max tp.snd_cwnd tp.packets_in_flight + tp.total_retrans < 4294967296)
    (hr : tp2.total_retrans ≤ (relentless_cong_avoid tp ca).2.cwndnlosses) :
    (relentless_event tp2 (relentless_cong_avoid tp ca).2 CaEvent.complete_cwr).snd_ssthresh
      = (relentless_cong_avoid tp ca).2.cwndnlosses - tp2.total_retrans
    ∧ (relentless_cong_avoid tp ca).2.cwndnlosses
      = max tp.snd_cwnd tp.packets_in_flight + tp.total_retrans := by
  simp only [relentless_cong_avoid, relentless_event, sub32, u32] at *
  omega

/-- Witness for C1: concrete flow with cwnd 10, 8 packets in flight, 3
retransmissions at the tick, 7 at recovery completion: ssthresh becomes
13 - 7 = 6. -/
theorem C1_recovery_ssthresh_witness :
    max 10 8 + 3 < 4294967296
    ∧ (3 : Nat) + 4
        ≤ (relentless_cong_avoid (TcpSock.mk 10 5 3 8 0) (relentless_init 10)).2.cwndnlosses
    ∧ (relentless_event (TcpSock.mk 12 5 7 8 0)
        (relentless_cong_avoid (TcpSock.mk 10 5 3 8 0) (relentless_init 10)).2
        CaEvent.complete_cwr).snd_ssthresh = 6 := by
  refine ⟨by decide, by decide, ?_⟩
  have h := C1_recovery_ssthresh (TcpSock.mk 10 5 3 8 0) (TcpSock.mk 12 5 7 8 0)
    (relentless_init 10) (by decide) (by decide)
  rw [h.1, h.2]
  decide

/-- C3: a CE_Observed event delivered while a delayed ACK is reserved (and
the state is about to change from NoCE) emits exactly one retroactive ACK
carrying the cursor recorded at the last transition and the ECN-echo flag
of the prior state (false, since the prior state was NoCE), leaves the
receive-sequence cursor where it was (the rewind is temporary), records the
cursor as the new prior baseline, and only then sets ce_state to CE. -/
theorem C3_ce_flush (s : EcnState)
    (hres : s.delayed_ack_reserved = true) (hst : s.ce_state = CeState.noCE) :
    (ecn_event s EcnEvent.ceObserved).2 = [AckRecord.mk s.prior_rcv_nxt false]
    ∧ (ecn_event s EcnEvent.ceObserved).1.ce_state = CeState.ce
    ∧ (ecn_event s EcnEvent.ceObserved).1.rcv_nxt = s.rcv_nxt
    ∧ (ecn_event s EcnEvent.ceObserved).1.prior_rcv_nxt = s.rcv_nxt := by
  simp only [ecn_event, ecn_transition, hst, hres, CeState.echoBit]
  exact ⟨rfl, rfl, rfl, rfl⟩

/-- Witness for C3: a concrete reserved-delayed-ACK NoCE state; the event
yields exactly one flushed ACK at cursor 500 with echo flag false. -/
theorem C3_ce_flush_witness :
    (EcnState.mk CeState.noCE true 700 500).delayed_ack_reserved = true
    ∧ (EcnState.mk CeState.noCE true 700 500).ce_state = CeState.noCE
    ∧ (ecn_event (EcnState.mk CeState.noCE true 700 500) EcnEvent.ceObserved).2
        = [AckRecord.mk 500 false]
    ∧ (ecn_event (EcnState.mk CeState.noCE true 700 500) EcnEvent.ceObserved).1.ce_state
        = CeState.ce :=
  ⟨rfl, rfl, (C3_ce_flush (EcnState.mk CeState.noCE true 700 500) rfl rfl).1,
    (C3_ce_flush (EcnState.mk CeState.noCE true 700 500) rfl rfl).2.1⟩

/-- A concrete flow state whose deadline (1000 ns) is pending, used to
exhibit the behavior of relentless_check_deadline on both sides of the
deadline. -/
def caDl : Ca := Ca.mk 0 0 0 100000 116992 10240 10 0 1000

/-- C4 (code bug): the guard of relentless_check_deadline is inverted
relative to its own comment ("only change deadline info after the previous
deadline has passed") and to the spec.  With the stored deadline at
1000 ns: a call at now = 2000 ns (deadline already elapsed) returns with
nothing refreshed, while a call at now = 500 ns (deadline still in the
future) refreshes the Bulk quota to packets_left = 10000 and draws a new
deadline 500 + 2*10^12 ns. -/
theorem C4_inverted_guard :
    relentless_check_deadline caDl 2 2000 = caDl
    ∧ (relentless_check_deadline caDl 2 500).packets_left = 10000
    ∧ (relentless_check_deadline caDl 2 500).deadline = 500 + 2000000000000 := by
  decide

/-- A host-state value for the fresh-flow scenario (cwnd 10). -/
def tpDemo : TcpSock := TcpSock.mk 10 1000 0 0 0

/-- The fresh flow of the C5 scenario after its first RTT sample of
100000. -/
def c5s1 : TcpSock × Ca :=
  relentless_pkts_acked defaultConfig tpDemo (relentless_init 10) 1 100000 0 0 0

/-- The same flow after a second identical sample of 100000. -/
def c5s2 : TcpSock × Ca :=
  relentless_pkts_acked defaultConfig c5s1.1 c5s1.2 1 100000 0 0 0

/-- Counterexample to C5: with markthresh=174 the first 100000 sample sets
rtt_thresh to 100000 + 100000*174/1024 = 116992, not the claimed 117400,
and the second identical sample does not increase rtt_window at all (it
returns at the observation-count guard, 2 < 10), rather than by 1024. -/
theorem C5_cex :
    c5s1.2.rtt_thresh = 116992
    ∧ c5s1.2.rtt_thresh ≠ 117400
    ∧ c5s2.2.rtt_cwnd = c5s1.2.rtt_cwnd
    ∧ c5s1.2.rtt_cwnd = 10240 := by
  decide

/-- C5 as amended: the first sample sets rtt_min=100000 and
rtt_thresh=116992 (the floor of 100000·174/1024 added to 100000); the
second identical sample only increments the observation counter — with
2 < 10 observations the window logic is not reached, so rtt_window and
everything else are unchanged. -/
theorem C5_amended_first_samples :
    c5s1 = (tpDemo, Ca.mk 0 0 1 100000 116992 10240 10 0 0)
    ∧ c5s2 = (tpDemo, Ca.mk 0 0 2 100000 116992 10240 10 0 0) := by
  decide

theorem rttUpdate_not_lt (cfg : Config) (ca : Ca) (r : Nat) (h : ¬ r < ca.rtt_min) :
    rttUpdate cfg ca r = ca := by
  unfold rttUpdate
  rw [if_neg h]

theorem rttUpdate_lt (cfg : Config) (ca : Ca) (r : Nat) (h : r < ca.rtt_min) :
    rttUpdate cfg ca r = { ca with rtt_min := r, rtt_thresh := threshOf cfg r } := by
  unfold rttUpdate
  rw [if_pos h]

theorem pkts_acked_pos (cfg : Config) (tp : TcpSock) (ca : Ca) (na : Nat) (rtt : Int)
    (draw : Nat) (now : Int) (prio : Nat) (h : 0 < rtt) :
    relentless_pkts_acked cfg tp ca na rtt draw now prio
      = ackPhase cfg tp
          (rttUpdate cfg { ca with rtts_observed := ca.rtts_observed + 1 } rtt.toNat)
          na rtt.toNat draw now prio := by
  unfold relentless_pkts_acked
  rw [if_neg (by omega)]

theorem backoff_observed (tp : TcpSock) (ca : Ca) (draw n : Nat) :
    relentless_backoff tp { ca with rtts_observed := n } draw = relentless_backoff tp ca draw :=
  rfl

theorem check_deadline_rtt_fields (ca : Ca) (prio : Nat) (now : Int) :
    (relentless_check_deadline ca prio now).rtt_min = ca.rtt_min
    ∧ (relentless_check_deadline ca prio now).rtt_thresh = ca.rtt_thresh
    ∧ (relentless_check_deadline ca prio now).rtt_cwnd = ca.rtt_cwnd
    ∧ (relentless_check_deadline ca prio now).rtts_observed = ca.rtts_observed := by
  unfold relentless_check_deadline
  split
  · exact ⟨rfl, rfl, rfl, rfl⟩
  · split
    · exact ⟨rfl, rfl, rfl, rfl⟩
    · exact ⟨rfl, rfl, rfl, rfl⟩

theorem deadlinePhase_rtt_fields (cfg : Config) (s : TcpSock × Ca) (na : Nat) (now : Int)
    (prio : Nat) :
    (deadlinePhase cfg s na now prio).1 = s.1
    ∧ (deadlinePhase cfg s na now prio).2.rtt_min = s.2.rtt_min
    ∧ (deadlinePhase cfg s na now prio).2.rtt_thresh = s.2.rtt_thresh
    ∧ (deadlinePhase cfg s na now prio).2.rtt_cwnd = s.2.rtt_cwnd
    ∧ (deadlinePhase cfg s na now prio).2.rtts_observed = s.2.rtts_observed := by
  simp only [deadlinePhase]
  split
  · have hc := check_deadline_rtt_fields s.2 prio now
    exact ⟨rfl, hc.1, hc.2.1, hc.2.2.1, hc.2.2.2⟩
  · exact ⟨rfl, rfl, rfl, rfl, rfl⟩

theorem deadlinePhase_off (cfg : Config) (s : TcpSock × Ca) (na : Nat) (now : Int) (prio : Nat)
    (h : cfg.deadline_aware = false) :
    deadlinePhase cfg s na now prio = s := by
  unfold deadlinePhase
  rw [if_neg]
  simp [h]

theorem congestedStep_rtt_fields (tp : TcpSock) (ca : Ca) (na draw : Nat) :
    (congestedStep tp ca na draw).2.rtt_min = ca.rtt_min
    ∧ (congestedStep tp ca na draw).2.rtt_thresh = ca.rtt_thresh
    ∧ (congestedStep tp ca na draw).2.rtts_observed = ca.rtts_observed := by
  simp only [congestedStep]
  split <;> exact ⟨rfl, rfl, rfl⟩

theorem congestedStep_rtt_cwnd_true (tp : TcpSock) (ca : Ca) (na draw : Nat)
    (h : relentless_backoff tp ca draw = true) :
    (congestedStep tp ca na draw).2.rtt_cwnd = backoffStep ca.rtt_cwnd na := by
  unfold congestedStep
  rw [if_pos h]

theorem congestedStep_rtt_cwnd_false (tp : TcpSock) (ca : Ca) (na draw : Nat)
    (h : relentless_backoff tp ca draw = false) :
    (congestedStep tp ca na draw).2.rtt_cwnd = ca.rtt_cwnd := by
  unfold congestedStep
  rw [if_neg (by simp [h])]

theorem growthStep_rtt_fields (tp : TcpSock) (ca : Ca) :
    (growthStep tp ca).2.rtt_min = ca.rtt_min
    ∧ (growthStep tp ca).2.rtt_thresh = ca.rtt_thresh
    ∧ (growthStep tp ca).2.rtts_observed = ca.rtts_observed :=
  ⟨rfl, rfl, rfl⟩

theorem ackPhase_rtt_fields (cfg : Config) (tp : TcpSock) (ca : Ca) (na r draw : Nat)
    (now : Int) (prio : Nat) :
    (ackPhase cfg tp ca na r draw now prio).2.rtt_min = ca.rtt_min
    ∧ (ackPhase cfg tp ca na r draw now prio).2.rtt_thresh = ca.rtt_thresh
    ∧ (ackPhase cfg tp ca na r draw now prio).2.rtts_observed = ca.rtts_observed := by
  unfold ackPhase
  split
  · exact ⟨rfl, rfl, rfl⟩
  · have hd := deadlinePhase_rtt_fields cfg
      (if ca.rtt_thresh < r then congestedStep tp ca na draw else growthStep tp ca) na now prio
    rw [hd.2.1, hd.2.2.1, hd.2.2.2.2]
    split
    · exact congestedStep_rtt_fields tp ca na draw
    · exact growthStep_rtt_fields tp ca

/-- C7: a non-positive RTT sample leaves the whole state untouched; a
positive sample updates rtt_min and rtt_thresh exactly when it is strictly
below the current rtt_min (setting them to the sample and to the
recomputed threshold), and never otherwise, while always incrementing the
observation counter. -/
theorem C7_sample_validation (cfg : Config) (tp : TcpSock) (ca : Ca) (na : Nat) (rtt : Int)
    (draw : Nat) (now : Int) (prio : Nat) :
    (rtt ≤ 0 → relentless_pkts_acked cfg tp ca na rtt draw now prio = (tp, ca))
    ∧ (0 < rtt → rtt.toNat < ca.rtt_min →
        (relentless_pkts_acked cfg tp ca na rtt draw now prio).2.rtt_min = rtt.toNat
        ∧ (relentless_pkts_acked cfg tp ca na rtt draw now prio).2.rtt_thresh
            = threshOf cfg rtt.toNat
        ∧ (relentless_pkts_acked cfg tp ca na rtt draw now prio).2.rtts_observed
            = ca.rtts_observed + 1)
    ∧ (0 < rtt → ¬ rtt.toNat < ca.rtt_min →
        (relentless_pkts_acked cfg tp ca na rtt draw now prio).2.rtt_min = ca.rtt_min
        ∧ (relentless_pkts_acked cfg tp ca na rtt draw now prio).2.rtt_thresh = ca.rtt_thresh
        ∧ (relentless_pkts_acked cfg tp ca na rtt draw now prio).2.rtts_observed
            = ca.rtts_observed + 1) := by
  refine ⟨?_, ?_, ?_⟩
  · intro h
    unfold relentless_pkts_acked
    rw [if_pos h]
  · intro h1 h2
    rw [pkts_acked_pos cfg tp ca na rtt draw now prio h1,
        rttUpdate_lt cfg { ca with rtts_observed := ca.rtts_observed + 1 } rtt.toNat h2]
    have ha := ackPhase_rtt_fields cfg tp
      { ca with rtts_observed := ca.rtts_observed + 1, rtt_min := rtt.toNat,
                rtt_thresh := threshOf cfg rtt.toNat } na rtt.toNat draw now prio
    exact ⟨ha.1, ha.2.1, ha.2.2⟩
  · intro h1 h2
    rw [pkts_acked_pos cfg tp ca na rtt draw now prio h1,
        rttUpdate_not_lt cfg { ca with rtts_observed := ca.rtts_observed + 1 } rtt.toNat h2]
    have ha := ackPhase_rtt_fields cfg tp
      { ca with rtts_observed := ca.rtts_observed + 1 } na rtt.toNat draw now prio
    exact ⟨ha.1, ha.2.1, ha.2.2⟩

/-- Witness for C7: a sample of -5 is a complete no-op on a fresh flow; a
first positive sample of 100000 (below the 10^6 sentinel) sets rtt_min;
a sample of 200000 above the recorded rtt_min of 100000 leaves rtt_thresh
unchanged. -/
theorem C7_sample_validation_witness :
    (relentless_pkts_acked defaultConfig tpDemo (relentless_init 10) 1 (-5) 0 0 0
        = (tpDemo, relentless_init 10))
    ∧ (relentless_pkts_acked defaultConfig tpDemo (relentless_init 10) 1 100000 0 0 0).2.rtt_min
        = 100000
    ∧ (relentless_pkts_acked defaultConfig tpDemo (Ca.mk 0 0 9 100000 116992 10240 10 0 0)
        1 200000 0 0 0).2.rtt_thresh = 116992 := by
  refine ⟨?_, ?_, ?_⟩
  · exact (C7_sample_validation defaultConfig tpDemo (relentless_init 10) 1 (-5) 0 0 0).1
      (by decide)
  · exact ((C7_sample_validation defaultConfig tpDemo (relentless_init 10) 1 100000 0 0 0).2.1
      (by decide) (by decide)).1
  · exact ((C7_sample_validation defaultConfig tpDemo (Ca.mk 0 0 9 100000 116992 10240 10 0 0)
      1 200000 0 0 0).2.2 (by decide) (by decide)).2.1

/-- A host state above ssthresh (cwnd 10, ssthresh 5). -/
def tp6 : TcpSock := TcpSock.mk 10 5 0 0 0

/-- A flow that has seen 9 RTT samples, with rtt_min 100000, rtt_thresh
116992 and rtt_cwnd 10240. -/
def ca9 : Ca := Ca.mk 0 0 9 100000 116992 10240 10 0 0

/-- Delivery of a 10th, congested (200000 > 116992) sample to `ca9` with a
random draw of 1. -/
def c6run : TcpSock × Ca := relentless_pkts_acked defaultConfig tp6 ca9 1 200000 1 0 0

/-- Counterexample to C6: with the default slowstart_rtt_observations_needed
of 10, the 10th observed sample (not the 11th) already triggers a
congestion reaction — the guard is `rtts_observed < needed`, so a flow with
9 prior observations reacts to a congested sample: rtt_cwnd drops from
10240 to 10176 and the congestion window is overwritten with 10176 >> 10
= 9. -/
theorem C6_cex :
    ca9.rtts_observed = 9
    ∧ defaultConfig.slowstart_rtt_observations_needed = 10
    ∧ c6run.2.rtts_observed = 10
    ∧ ca9.rtt_cwnd = 10240
    ∧ c6run.2.rtt_cwnd = 10176
    ∧ c6run.1.snd_cwnd = 9 := by
  decide

/-- C6 as amended: congestion reactions on the RTT-sample path are
suppressed while the observation count (after the increment for the
current sample) is still strictly below slowstart_rtt_observations_needed
— such a call only bumps the counter and possibly rtt_min/rtt_thresh — and
a reaction is possible as soon as the count reaches the threshold, i.e.
from the 10th observed sample onward with the default of 10 (the `c6run`
sample is the 10th and it shrinks rtt_window). -/
theorem C6_amended (cfg : Config) (tp : TcpSock) (ca : Ca) (na : Nat) (rtt : Int)
    (draw : Nat) (now : Int) (prio : Nat) :
    (0 < rtt → ca.rtts_observed + 1 < cfg.slowstart_rtt_observations_needed →
      relentless_pkts_acked cfg tp ca na rtt draw now prio
        = (tp, rttUpdate cfg { ca with rtts_observed := ca.rtts_observed + 1 } rtt.toNat))
    ∧ c6run.2.rtt_cwnd ≠ ca9.rtt_cwnd := by
  constructor
  · intro h1 h2
    rw [pkts_acked_pos cfg tp ca na rtt draw now prio h1]
    have hobs : (rttUpdate cfg { ca with rtts_observed := ca.rtts_observed + 1 }
        rtt.toNat).rtts_observed = ca.rtts_observed + 1 := by
      unfold rttUpdate
      split <;> rfl
    unfold ackPhase
    rw [if_pos (show (rttUpdate cfg { ca with rtts_observed := ca.rtts_observed + 1 }
        rtt.toNat).rtts_observed < cfg.slowstart_rtt_observations_needed by
      rw [hobs]; exact h2)]
  · decide

/-- Witness for C6's amended statement: a 4th sample (3 prior observations,
below the default threshold of 10) of rtt 50 only records the new minimum
(rtt_min 50, rtt_thresh 58) and the counter; windows are untouched. -/
theorem C6_amended_witness :
    (0 : Int) < 50
    ∧ (Ca.mk 0 0 3 100000 116992 10240 10 0 0).rtts_observed + 1
        < defaultConfig.slowstart_rtt_observations_needed
    ∧ relentless_pkts_acked defaultConfig tp6 (Ca.mk 0 0 3 100000 116992 10240 10 0 0)
        1 50 0 0 0 = (tp6, Ca.mk 0 0 4 50 58 10240 10 0 0) := by
  refine ⟨by decide, by decide, ?_⟩
  rw [(C6_amended defaultConfig tp6 (Ca.mk 0 0 3 100000 116992 10240 10 0 0)
    1 50 0 0 0).1 (by decide) (by decide)]
  decide

/-- A deadline-aware configuration with the default thresholds. -/
def cfgDA : Config := Config.mk 174 10 true

/-- A steady-state flow (20 observations, above ssthresh) with no deadline
drawn yet. -/
def caDA : Ca := Ca.mk 0 0 20 100000 116992 10240 10 0 0

/-- First acknowledgment (2 packets) of the C9 scenario, at now = 0, for a
Bulk-priority (2) socket. -/
def c9s1 : TcpSock × Ca := relentless_pkts_acked cfgDA tp6 caDA 2 100000 0 0 2

/-- Second acknowledgment (2 packets), one second later, still far inside
the drawn deadline. -/
def c9s2 : TcpSock × Ca := relentless_pkts_acked cfgDA c9s1.1 c9s1.2 2 100000 0 1000000000 2

/-- C9 (code bug): within the period the quota never drains.  The first
ack refreshes the Bulk quota (packets_left 10000) and decrements it to
9998, but because the deadline guard is inverted, the second ack — with
the deadline still 2*10^12 ns away — refreshes the quota again before
decrementing, so packets_left is 9998 rather than 9996 after 4 packets;
also the drawn period is 2*10^12 ns = 2000 s, not the claimed 2 s, because
the nanosecond-valued period is added as microseconds. -/
theorem C9_quota_reset :
    c9s1.2.packets_left = 9998
    ∧ c9s1.2.deadline = 2000000000000
    ∧ c9s2.2.packets_left = 9998
    ∧ c9s2.2.deadline = 1000000000 + 2000000000000 := by
  decide

/-- C2: the congested-branch decrement can never take rtt_cwnd below the
2048 floor, for an arbitrary num_acked; iterating the num_acked=2
decrement from any in-range start decreases the window by 128 per step
until it reaches 2048 and then holds it there (closed form
max (w - 128k) 2048); and on the congested path of relentless_pkts_acked
with the backoff predicate true, the new rtt_cwnd is exactly this
decrement of the old one. -/
theorem C2_rtt_window_floor :
    (∀ w na, 2048 ≤ backoffStep w na)
    ∧ (∀ w k, 2048 ≤ w → w < 4294967296 →
        (fun x => backoffStep x 2)^[k] w = max (w - 128 * k) 2048)
    ∧ (∀ cfg tp ca na rtt draw now prio,
        0 < rtt → ¬ rtt.toNat < ca.rtt_min →
        cfg.slowstart_rtt_observations_needed ≤ ca.rtts_observed + 1 →
        ca.rtt_thresh < rtt.toNat →
        relentless_backoff tp ca draw = true →
        cfg.deadline_aware = false →
        (relentless_pkts_acked cfg tp ca na rtt draw now prio).2.rtt_cwnd
          = backoffStep ca.rtt_cwnd na) := by
  refine ⟨?_, ?_, ?_⟩
  · intro w na
    exact le_max_right _ _
  · intro w k hw hw2
    induction k with
    | zero =>
      rw [Function.iterate_zero_apply, Nat.mul_zero, Nat.sub_zero, Nat.max_eq_left hw]
    | succ k ih =>
      rw [Function.iterate_succ_apply', ih]
      unfold backoffStep sub32 u32
      omega
  · intro cfg tp ca na rtt draw now prio h1 h2 h3 h4 h5 h6
    rw [pkts_acked_pos cfg tp ca na rtt draw now prio h1,
        rttUpdate_not_lt cfg { ca with rtts_observed := ca.rtts_observed + 1 } rtt.toNat h2]
    unfold ackPhase
    rw [if_neg (Nat.not_lt.mpr h3), if_pos h4,
        deadlinePhase_off cfg _ na now prio h6]
    have hb : relentless_backoff tp { ca with rtts_observed := ca.rtts_observed + 1 } draw
        = true := by
      rw [backoff_observed]
      exact h5
    rw [congestedStep_rtt_cwnd_true tp _ na draw hb]

/-- Witness for C2: the floor holds at a concrete decrement; 20 iterated
num_acked=2 decrements from 4096 follow the closed form (reaching the 2048
floor and staying); and a concrete congested, backed-off sample decrements
rtt_cwnd of the `caDA` flow by 2*64. -/
theorem C2_rtt_window_floor_witness :
    2048 ≤ backoffStep 4096 3
    ∧ 2048 ≤ (4096 : Nat)
    ∧ (4096 : Nat) < 4294967296
    ∧ (fun x => backoffStep x 2)^[20] 4096 = max (4096 - 128 * 20) 2048
    ∧ (relentless_pkts_acked defaultConfig tp6 caDA 2 200000 1 0 0).2.rtt_cwnd
        = backoffStep caDA.rtt_cwnd 2 :=
  ⟨C2_rtt_window_floor.1 4096 3, by decide, by decide,
    C2_rtt_window_floor.2.1 4096 20 (by decide) (by decide),
    C2_rtt_window_floor.2.2 defaultConfig tp6 caDA 2 200000 1 0 0 (by decide) (by decide)
      (by decide) (by decide) (by decide) (by decide)⟩

/-- C8: the urgency value is always within [0, 2048]; when the flow is at
or above ssthresh the backoff decision is exactly "the uniform draw over
[0, 2048) exceeds the urgency"; a flow below ssthresh is never backed off;
and a state with higher urgency has at most as many backing-off draws in
[0, 2048) as one with lower urgency (lower backoff probability under the
uniform draw). -/
theorem C8_backoff_probability (tp : TcpSock) (ca ca2 : Ca) (draw : Nat) :
    (0 ≤ relentless_urgency tp ca ∧ relentless_urgency tp ca ≤ 2048)
    ∧ (tp.snd_ssthresh ≤ tp.snd_cwnd →
        (relentless_backoff tp ca draw = true ↔ relentless_urgency tp ca < (draw : Int)))
    ∧ (tp.snd_cwnd < tp.snd_ssthresh → relentless_backoff tp ca draw = false)
    ∧ (relentless_urgency tp ca ≤ relentless_urgency tp ca2 →
        ((Finset.range 2048).filter (fun d => relentless_backoff tp ca2 d = true)).card
          ≤ ((Finset.range 2048).filter (fun d => relentless_backoff tp ca d = true)).card) := by
  refine ⟨?_, ?_, ?_, ?_⟩
  · simp only [relentless_urgency]
    split
    · exact ⟨le_refl 0, by norm_num⟩
    · unfold iclamp
      exact ⟨le_min (le_max_right _ _) (by norm_num), min_le_right _ _⟩
  · intro h
    simp [relentless_backoff, h]
  · intro h
    have hn : ¬ tp.snd_ssthresh ≤ tp.snd_cwnd := by omega
    simp [relentless_backoff, hn]
  · intro hle
    apply Finset.card_le_card
    intro d hd
    simp only [Finset.mem_filter, Finset.mem_range] at hd ⊢
    refine ⟨hd.1, ?_⟩
    have hb := hd.2
    simp only [relentless_backoff, Bool.and_eq_true, decide_eq_true_eq] at hb ⊢
    exact ⟨hb.1, lt_of_le_of_lt hle hb.2⟩

/-- Witness for C8: for the above-ssthresh host state `tp6` the decision
matches the draw-exceeds-urgency test; a below-ssthresh flow (cwnd 3 <
ssthresh 5) is never backed off even at the maximal draw 2047; and for two
states of equal urgency the backing-off draw count is (trivially)
monotone. -/
theorem C8_backoff_probability_witness :
    tp6.snd_ssthresh ≤ tp6.snd_cwnd
    ∧ (relentless_backoff tp6 caDA 7 = true ↔ relentless_urgency tp6 caDA < (7 : Int))
    ∧ (TcpSock.mk 3 5 0 0 0).snd_cwnd < (TcpSock.mk 3 5 0 0 0).snd_ssthresh
    ∧ relentless_backoff (TcpSock.mk 3 5 0 0 0) caDA 2047 = false
    ∧ (((Finset.range 2048).filter (fun d => relentless_backoff tp6 caDl d = true)).card
        ≤ ((Finset.range 2048).filter (fun d => relentless_backoff tp6 caDA d = true)).card) :=
  ⟨by decide, (C8_backoff_probability tp6 caDA caDA 7).2.1 (by decide), by decide,
    (C8_backoff_probability (TcpSock.mk 3 5 0 0 0) caDA caDA 2047).2.2.1 (by decide),
    (C8_backoff_probability tp6 caDA caDl 0).2.2.2 (by decide)⟩

end Relentless
